import Mathlib

/-!
Verification development for the bg-tourney bracket engine and score-report
intake pipeline.  The definitions below are shallow embeddings of the
TypeScript source:

* `parseScoreText`, `validateScore` …… src/lib/score-parser.ts
* `generateRound1Matches`, `nextPowerOf2` …… the bracket-generation library
  (src/unnamed/part_000)
* `handleAdvanceRound` …… the director dashboard page
* `selectTargetMatch`, `resolveParsedWinnerId`, `confidenceScoreOf`,
  `smsIntakeStates` …… the SMS webhook POST handler

JavaScript character classes (\w, \d, \s) are modelled over their ASCII
portion; the regular expressions of the parser are specialised to the three
concrete patterns of the source, with JS leftmost-match semantics (the scan
tries every start position in order; at a fixed start the patterns are
deterministic because the character classes of adjacent atoms are disjoint).
-/

namespace BG

/-- Confidence level of a parsed score, as in the ParsedScore interface. -/
inductive Confidence where
  | high
  | medium
  | low
deriving DecidableEq, Repr

/-- Status of a match row ('pending' | 'in_progress' | 'completed' | 'bye'). -/
inductive MatchStatus where
  | pending
  | in_progress
  | completed
  | bye
deriving DecidableEq, Repr

/-- Status of a score report row. -/
inductive ReportStatus where
  | pending
  | approved
  | rejected
  | needs_clarification
deriving DecidableEq, Repr

/-- Status of a bracket row. -/
inductive BracketStatus where
  | pending
  | in_progress
  | completed
deriving DecidableEq, Repr

/-- ASCII portion of the JS \w class: [A-Za-z0-9_]. -/
def isWordChar (c : Char) : Bool :=
  c.isAlpha || c.isDigit || c == '_'

/-- JS \d class: [0-9]. -/
def isDigitChar (c : Char) : Bool :=
  c.isDigit

/-- ASCII portion of the JS \s class. -/
def isSpaceChar (c : Char) : Bool :=
  c == ' ' || c == '\t' || c == '\n' || c == '\r' || c == '\x0b' || c == '\x0c'

/-- Numeric value of a list of decimal digits (JS parseInt on a \d+ capture). -/
def natOfDigits (cs : List Char) : Nat :=
  cs.foldl (fun acc c => acc * 10 + (c.toNat - 48)) 0

/-- Lower-casing of a string, as JS toLowerCase on ASCII input. -/
def lowerStr (s : String) : String :=
  String.mk (s.data.map Char.toLower)

/-- Does the needle occur at the very front of the haystack? -/
def leadsWith : List Char → List Char → Bool
  | [], _ => true
  | _ :: _, [] => false
  | a :: as, b :: bs => a == b && leadsWith as bs

/-- Does the needle occur anywhere in the haystack (JS String.includes)? -/
def containsChars (needle : List Char) : List Char → Bool
  | [] => leadsWith needle []
  | c :: rest => leadsWith needle (c :: rest) || containsChars needle rest

/-- JS hay.includes(needle) on strings. -/
def strContains (hay needle : String) : Bool :=
  containsChars needle.data hay.data

/-- Case-insensitive literal at the front: consumes the literal (given in
lower case) and returns the rest, or fails. -/
def dropLitCI : List Char → List Char → Option (List Char)
  | [], cs => some cs
  | _ :: _, [] => none
  | l :: ls, c :: cs => if c.toLower == l then dropLitCI ls cs else none

/-- Anchored attempt of pattern 1, /(\w+)\s+(\d+)\s+(\w+)\s+(\d+)/: name,
score, name, score.  Greedy runs of the disjoint classes \w, \s, \d make the
attempt deterministic. -/
def tryP1 (cs : List Char) : Option (String × Nat × String × Nat) :=
  let w1 := cs.takeWhile isWordChar
  let r1 := cs.dropWhile isWordChar
  if w1.isEmpty then none else
  let sp1 := r1.takeWhile isSpaceChar
  let r2 := r1.dropWhile isSpaceChar
  if sp1.isEmpty then none else
  let d1 := r2.takeWhile isDigitChar
  let r3 := r2.dropWhile isDigitChar
  if d1.isEmpty then none else
  let sp2 := r3.takeWhile isSpaceChar
  let r4 := r3.dropWhile isSpaceChar
  if sp2.isEmpty then none else
  let w2 := r4.takeWhile isWordChar
  let r5 := r4.dropWhile isWordChar
  if w2.isEmpty then none else
  let sp3 := r5.takeWhile isSpaceChar
  let r6 := r5.dropWhile isSpaceChar
  if sp3.isEmpty then none else
  let d2 := r6.takeWhile isDigitChar
  if d2.isEmpty then none else
  some (String.mk w1, natOfDigits d1, String.mk w2, natOfDigits d2)

/-- Leftmost match of pattern 1: try every start position left to right. -/
def p1Scan : List Char → Option (String × Nat × String × Nat)
  | [] => none
  | c :: rest =>
    match tryP1 (c :: rest) with
    | some r => some r
    | none => p1Scan rest

/-- Tail of pattern 2 after the beat/def/defeated literal:
\s+(\w+)\s+(\d+)-(\d+). -/
def p2Tail (r : List Char) : Option (String × Nat × Nat) :=
  let sp1 := r.takeWhile isSpaceChar
  let a1 := r.dropWhile isSpaceChar
  if sp1.isEmpty then none else
  let w2 := a1.takeWhile isWordChar
  let a2 := a1.dropWhile isWordChar
  if w2.isEmpty then none else
  let sp2 := a2.takeWhile isSpaceChar
  let a3 := a2.dropWhile isSpaceChar
  if sp2.isEmpty then none else
  let d1 := a3.takeWhile isDigitChar
  let a4 := a3.dropWhile isDigitChar
  if d1.isEmpty then none else
  match a4 with
  | '-' :: a5 =>
    let d2 := a5.takeWhile isDigitChar
    if d2.isEmpty then none else
    some (String.mk w2, natOfDigits d1, natOfDigits d2)
  | _ => none

/-- Anchored attempt of pattern 2,
/(\w+)\s+(?:beat|def|defeated)\s+(\w+)\s+(\d+)-(\d+)/i.  The alternation is
tried left to right with backtracking into the next alternative when the
continuation fails, as the JS engine does. -/
def tryP2 (cs : List Char) : Option (String × String × Nat × Nat) :=
  let w1 := cs.takeWhile isWordChar
  let r1 := cs.dropWhile isWordChar
  if w1.isEmpty then none else
  let sp := r1.takeWhile isSpaceChar
  let r2 := r1.dropWhile isSpaceChar
  if sp.isEmpty then none else
  let viaLit : List Char → Option (String × String × Nat × Nat) := fun lit =>
    match dropLitCI lit r2 with
    | some rest =>
      match p2Tail rest with
      | some (w2, a, b) => some (String.mk w1, w2, a, b)
      | none => none
    | none => none
  match viaLit ['b','e','a','t'] with
  | some r => some r
  | none =>
    match viaLit ['d','e','f'] with
    | some r => some r
    | none => viaLit ['d','e','f','e','a','t','e','d']

/-- Leftmost match of pattern 2. -/
def p2Scan : List Char → Option (String × String × Nat × Nat)
  | [] => none
  | c :: rest =>
    match tryP2 (c :: rest) with
    | some r => some r
    | none => p2Scan rest

/-- Anchored attempt of pattern 3, /(\d+)\s*[-:]\s*(\d+)/: two scores
separated by a dash or a colon, optionally surrounded by whitespace. -/
def tryP3 (cs : List Char) : Option (Nat × Nat) :=
  let d1 := cs.takeWhile isDigitChar
  let r1 := cs.dropWhile isDigitChar
  if d1.isEmpty then none else
  let r2 := r1.dropWhile isSpaceChar
  match r2 with
  | c :: r3 =>
    if c == '-' || c == ':' then
      let r4 := r3.dropWhile isSpaceChar
      let d2 := r4.takeWhile isDigitChar
      if d2.isEmpty then none else some (natOfDigits d1, natOfDigits d2)
    else none
  | [] => none

/-- Leftmost match of pattern 3. -/
def p3Scan : List Char → Option (Nat × Nat)
  | [] => none
  | c :: rest =>
    match tryP3 (c :: rest) with
    | some r => some r
    | none => p3Scan rest

/-- Result record of parseScoreText (the ParsedScore interface). -/
structure ParsedScore where
  player1Name : Option String := none
  player2Name : Option String := none
  player1Score : Option Int := none
  player2Score : Option Int := none
  winnerName : Option String := none
  confidence : Confidence
  error : Option String := none
deriving DecidableEq, Repr

/-- parseScoreText of src/lib/score-parser.ts: three parsing tiers tried in
order, first match wins, with an explicit failure record when none match. -/
def parseScoreText (text : String) : ParsedScore :=
  let cs := text.data
  match p1Scan cs with
  | some (name1, s1, name2, s2) =>
    { player1Name := some name1
      player2Name := some name2
      player1Score := some (Int.ofNat s1)
      player2Score := some (Int.ofNat s2)
      winnerName := some (if s1 > s2 then name1 else name2)
      confidence := Confidence.high }
  | none =>
  match p2Scan cs with
  | some (winner, loser, s1, s2) =>
    { player1Name := some winner
      player2Name := some loser
      player1Score := some (Int.ofNat s1)
      player2Score := some (Int.ofNat s2)
      winnerName := some winner
      confidence := Confidence.high }
  | none =>
  match p3Scan cs with
  | some (s1, s2) =>
    { player1Score := some (Int.ofNat s1)
      player2Score := some (Int.ofNat s2)
      confidence := Confidence.medium }
  | none =>
    { confidence := Confidence.low
      error := some "Could not parse score from text" }

/-- Result record of validateScore. -/
structure ScoreValidation where
  valid : Bool
  error : Option String := none
deriving DecidableEq, Repr

/-- validateScore of src/lib/score-parser.ts: the checks in source order. -/
def validateScore (parsed : ParsedScore) (matchLength : Int) : ScoreValidation :=
  match parsed.player1Score, parsed.player2Score with
  | some player1Score, some player2Score =>
    if player1Score ≠ matchLength ∧ player2Score ≠ matchLength then
      { valid := false, error := some s!"One player must reach {matchLength} points" }
    else if player1Score = player2Score then
      { valid := false, error := some "Scores cannot be tied" }
    else if player1Score < 0 ∨ player2Score < 0 then
      { valid := false, error := some "Scores must be positive" }
    else if min player1Score player2Score ≥ matchLength then
      { valid := false, error := some "Losing score must be less than match length" }
    else
      { valid := true }
  | _, _ => { valid := false, error := some "Could not determine both scores" }

/-- Player row: identity and name (the fields the bracket engine reads). -/
structure Player where
  id : Nat
  name : String
deriving DecidableEq, Repr

/-- Row shape produced by the bracket-generation library (BracketMatch). -/
structure BracketMatch where
  round_number : Nat
  match_number : Nat
  player1_id : Option Nat
  player2_id : Option Nat
  status : MatchStatus
  winner_id : Option Nat
deriving DecidableEq, Repr

/-- Fuel-driven ceiling of log2: smallest k with n ≤ 2 ^ k once the fuel is
at least n - 1.  Structural recursion keeps it kernel-reducible. -/
def clog2Fuel : Nat → Nat → Nat
  | 0, _ => 0
  | fuel + 1, n => if n ≤ 1 then 0 else clog2Fuel fuel ((n + 1) / 2) + 1

/-- Ceiling of log2 with enough fuel. -/
def clog2 (n : Nat) : Nat :=
  clog2Fuel n n

/-- nextPowerOf2 of the bracket library: Math.pow(2, Math.ceil(Math.log2 n)).
In JS the n = 0 case evaluates to 2 ^ -Infinity = 0. -/
def nextPowerOf2 (n : Nat) : Nat :=
  if n = 0 then 0 else 2 ^ clog2 n

/-- Bye matches of round 1, one per bye player, numbered from startNum. -/
def byeMatchesFrom (startNum : Nat) : List Player → List BracketMatch
  | [] => []
  | p :: ps =>
    { round_number := 1
      match_number := startNum
      player1_id := some p.id
      player2_id := none
      status := MatchStatus.bye
      winner_id := some p.id } :: byeMatchesFrom (startNum + 1) ps

/-- Regular round-1 matches: players paired two at a time; an odd trailing
player becomes a further bye, exactly as the generation loop does. -/
def pairMatchesFrom (startNum : Nat) : List Player → List BracketMatch
  | [] => []
  | [p] =>
    [{ round_number := 1
       match_number := startNum
       player1_id := some p.id
       player2_id := none
       status := MatchStatus.bye
       winner_id := some p.id }]
  | p :: q :: rest =>
    { round_number := 1
      match_number := startNum
      player1_id := some p.id
      player2_id := some q.id
      status := MatchStatus.pending
      winner_id := none } :: pairMatchesFrom (startNum + 1) rest

/-- generateRound1Matches of the bracket library.  The source shuffles the
players first with an unseeded Fisher-Yates; the shuffle is a permutation, so
the function is embedded on the already-shuffled list and the theorems
quantify over every input order. -/
def generateRound1Matches (shuffledPlayers : List Player) : List BracketMatch :=
  let bracketSize := nextPowerOf2 shuffledPlayers.length
  let byeCount := bracketSize - shuffledPlayers.length
  let byePlayers := shuffledPlayers.take byeCount
  let regularPlayers := shuffledPlayers.drop byeCount
  byeMatchesFrom 1 byePlayers ++ pairMatchesFrom (byePlayers.length + 1) regularPlayers

/-- Participants of one match row: the bye player once, or both players. -/
def matchParticipants (m : BracketMatch) : List Nat :=
  m.player1_id.toList ++ m.player2_id.toList

/-- Match row shape of the director dashboard bracket state. -/
structure DirectorMatch where
  bracket_id : Nat
  round_number : Nat
  match_number : Nat
  player1_id : Option Nat
  player2_id : Option Nat
  winner_id : Option Nat
  status : MatchStatus
  table_number : Option Nat
deriving DecidableEq, Repr

/-- Bracket row plus its loaded matches, as the dashboard holds it.  The
source field is named matches, which is a reserved word here. -/
structure BracketState where
  id : Nat
  current_round : Nat
  status : BracketStatus
  matchList : List DirectorMatch
deriving DecidableEq, Repr

/-- Division state of the dashboard: main bracket and optional consolation. -/
structure DivisionState where
  mainBracket : BracketState
  consolationBracket : Option BracketState
deriving DecidableEq, Repr

/-- Pairing loop of handleAdvanceRound for the main bracket.  The source
assigns table_number from the post-incremented matchNumber, hence mn + 1. -/
def pairWinners (bId nextRound : Nat) : Nat → List Nat → List DirectorMatch
  | _, [] => []
  | mn, [p] =>
    [{ bracket_id := bId
       round_number := nextRound
       match_number := mn
       player1_id := some p
       player2_id := none
       winner_id := some p
       status := MatchStatus.bye
       table_number := none }]
  | mn, p :: q :: rest =>
    { bracket_id := bId
      round_number := nextRound
      match_number := mn
      player1_id := some p
      player2_id := some q
      winner_id := none
      status := MatchStatus.pending
      table_number := some (mn + 1) } :: pairWinners bId nextRound (mn + 1) rest

/-- Pairing loop of handleAdvanceRound for the consolation bracket (the
consolation insert carries no table_number). -/
def pairLosers (bId nextRound : Nat) : Nat → List Nat → List DirectorMatch
  | _, [] => []
  | mn, [p] =>
    [{ bracket_id := bId
       round_number := nextRound
       match_number := mn
       player1_id := some p
       player2_id := none
       winner_id := some p
       status := MatchStatus.bye
       table_number := none }]
  | mn, p :: q :: rest =>
    { bracket_id := bId
      round_number := nextRound
      match_number := mn
      player1_id := some p
      player2_id := some q
      winner_id := none
      status := MatchStatus.pending
      table_number := none } :: pairLosers bId nextRound (mn + 1) rest

/-- Current-round matches of a division as the dashboard collects them:
main and consolation matches of the main bracket's current round. -/
def getCurrentRoundMatches (d : DivisionState) : List DirectorMatch :=
  let mainMatches := d.mainBracket.matchList
  let consolationMatches :=
    match d.consolationBracket with
    | some cb => cb.matchList
    | none => []
  (mainMatches ++ consolationMatches).filter
    (fun m => m.round_number == d.mainBracket.current_round)

/-- canAdvanceRound of the director dashboard (lines 155-159): the advance
button is enabled when the current round is non-empty and every match in it
is completed or a bye. -/
def canAdvanceRound (d : DivisionState) : Bool :=
  let currentMatches := getCurrentRoundMatches d
  currentMatches.length > 0 &&
    currentMatches.all
      (fun m => m.status == MatchStatus.completed || m.status == MatchStatus.bye)

/-- handleAdvanceRound of the director dashboard: reads current_round,
collects winners and losers of that round, inserts the next round's matches,
advances the consolation bracket when it exists and received losers, and
unconditionally bumps the main bracket's current_round.  The returned string
is the success toast. -/
def handleAdvanceRound (d : DivisionState) : DivisionState × String :=
  let currentRound := d.mainBracket.current_round
  let mainMatches := d.mainBracket.matchList.filter (fun m => m.round_number == currentRound)
  let winners := mainMatches.filterMap (fun m => m.winner_id)
  let losers :=
    (mainMatches.filter
        (fun m => m.status == MatchStatus.completed && m.winner_id.isSome)).filterMap
      (fun m => if m.winner_id == m.player1_id then m.player2_id else m.player1_id)
  let nextRound := currentRound + 1
  let newMainMatches := pairWinners d.mainBracket.id nextRound 1 winners
  let mainAfter : BracketState :=
    { d.mainBracket with
      matchList := d.mainBracket.matchList ++ newMainMatches
      current_round := nextRound }
  let consolationAfter : Option BracketState :=
    match d.consolationBracket with
    | some cb =>
      if losers.length > 0 then
        some { cb with
               matchList := cb.matchList ++ pairLosers cb.id nextRound 1 losers
               current_round := nextRound
               status := BracketStatus.in_progress }
      else some cb
    | none => none
  ({ mainBracket := mainAfter, consolationBracket := consolationAfter },
   s!"Advanced to Round {nextRound}")

/-- Joined player object as the SMS webhook reads it. -/
structure PlayerRef where
  id : Nat
  name : String
deriving DecidableEq, Repr

/-- Match row with joined player objects, as returned by the webhook's
activeMatches query (the query carries no order clause). -/
structure TargetMatch where
  id : Nat
  player1_id : Option Nat
  player2_id : Option Nat
  player1 : Option PlayerRef
  player2 : Option PlayerRef
  status : MatchStatus
  player1_score : Option Int
  player2_score : Option Int
  winner_id : Option Nat
  completed_at : Option Nat
  created_at : Nat
deriving DecidableEq, Repr

/-- Does the lower-cased body mention either participant's name?  A missing
player contributes the empty string, which JS includes treats as always
contained, exactly as the source does. -/
def nameMentioned (body : String) (m : TargetMatch) : Bool :=
  let bodyLower := lowerStr body
  let p1Name := lowerStr (match m.player1 with | some p => p.name | none => "")
  let p2Name := lowerStr (match m.player2 with | some p => p.name | none => "")
  strContains bodyLower p1Name || strContains bodyLower p2Name

/-- Scan loop of the webhook: targetMatch starts as the first element and is
replaced by the first candidate whose participant name occurs in the text. -/
def scanLoop (body : String) : List TargetMatch → TargetMatch → TargetMatch
  | [], dflt => dflt
  | x :: rest, dflt => if nameMentioned body x then x else scanLoop body rest dflt

/-- Target-match selection of the webhook POST handler (lines 919-931):
first element by default, the name scan only when more than one candidate. -/
def selectTargetMatch (body : String) (ms : List TargetMatch) : Option TargetMatch :=
  match ms with
  | [] => none
  | first :: rest =>
    if (first :: rest).length > 1 then some (scanLoop body (first :: rest) first)
    else some first

/-- Name-based winner binding of the webhook POST handler (lines 944-954):
a parser-named winner is bound to player1 when its lower-cased name contains
the lower-cased winner name, else to player2 under the same test. -/
def winnerByName (parsed : ParsedScore) (tm : TargetMatch) : Option Nat :=
  match parsed.winnerName with
  | some wn =>
    let wl := lowerStr wn
    if (match tm.player1 with
        | some p => strContains (lowerStr p.name) wl
        | none => false) then
      tm.player1.map PlayerRef.id
    else if (match tm.player2 with
             | some p => strContains (lowerStr p.name) wl
             | none => false) then
      tm.player2.map PlayerRef.id
    else none
  | none => none

/-- parsedWinnerId resolution of the webhook POST handler (lines 939-965):
everything is guarded by both scores being present and validateScore
succeeding; then the parser-named winner is matched case-insensitively
against player1 and player2, and otherwise the higher score decides. -/
def resolveParsedWinnerId (parsed : ParsedScore) (matchLength : Int)
    (tm : TargetMatch) : Option Nat :=
  match parsed.player1Score, parsed.player2Score with
  | some s1, some s2 =>
    if (validateScore parsed matchLength).valid then
      match winnerByName parsed tm with
      | some i => some i
      | none => if s1 > s2 then tm.player1_id else tm.player2_id
    else none
  | _, _ => none

/-- Modelled from the spec: winner resolution order as the claim words it,
without the validation precondition — (i) parser-named winner bound by
case-insensitive substring match, (ii) otherwise the strictly higher score,
(iii) otherwise unbound.  Used as the comparison point for claim C4. -/
def specWinnerResolution (parsed : ParsedScore) (tm : TargetMatch) : Option Nat :=
  match winnerByName parsed tm with
  | some i => some i
  | none =>
    match parsed.player1Score, parsed.player2Score with
    | some s1, some s2 =>
      if s1 > s2 then tm.player1_id
      else if s2 > s1 then tm.player2_id
      else none
    | _, _ => none

/-- Numeric confidence score of the webhook POST handler (lines 967-979):
90 / 60 / 30 by parser confidence, capped at 40 when both scores are present
but fail validation. -/
def confidenceScoreOf (parsed : ParsedScore) (matchLength : Int) : Nat :=
  let base : Nat :=
    match parsed.confidence with
    | Confidence.high => 90
    | Confidence.medium => 60
    | Confidence.low => 30
  match parsed.player1Score, parsed.player2Score with
  | some _, some _ =>
    if (validateScore parsed matchLength).valid then base else min base 40
  | _, _ => base

/-- Score report row as the webhook inserts it. -/
structure ScoreReport where
  match_id : Nat
  parsed_winner_id : Option Nat
  parsed_player1_score : Option Int
  parsed_player2_score : Option Int
  confidence_score : Nat
  status : ReportStatus
  approved_at : Option Nat
deriving DecidableEq, Repr

/-- Observable database state during the webhook's intake of one report. -/
structure SmsDbState where
  targetMatch : TargetMatch
  report : ScoreReport
deriving DecidableEq, Repr

/-- Observable state sequence of the webhook POST handler from the report
insert onwards (lines 982-1038): the report is inserted pending; when the
auto-approve condition holds the match row is updated first and the report
row is set to approved by a second, separate update. -/
def smsIntakeStates (tm : TargetMatch) (parsed : ParsedScore)
    (parsedWinnerId : Option Nat) (confidenceScore : Nat) (now : Nat) :
    List SmsDbState :=
  let report : ScoreReport :=
    { match_id := tm.id
      parsed_winner_id := parsedWinnerId
      parsed_player1_score := parsed.player1Score
      parsed_player2_score := parsed.player2Score
      confidence_score := confidenceScore
      status := ReportStatus.pending
      approved_at := none }
  let afterInsert : SmsDbState := { targetMatch := tm, report := report }
  if confidenceScore ≥ 90 ∧ parsedWinnerId.isSome ∧
      parsed.player1Score.isSome ∧ parsed.player2Score.isSome then
    let tmAfter : TargetMatch :=
      { tm with
        winner_id := parsedWinnerId
        player1_score := parsed.player1Score
        player2_score := parsed.player2Score
        status := MatchStatus.completed
        completed_at := some now }
    [afterInsert,
     { targetMatch := tmAfter, report := report },
     { targetMatch := tmAfter,
       report := { report with status := ReportStatus.approved, approved_at := some now } }]
  else [afterInsert]

/-! Theorems.  Helper lemmas come first, then one theorem per claim together
with its witness or counterexample. -/

/-- Parsed score carrying just the two numeric scores, for concrete
validator evaluations. -/
def scorePair (a b : Int) : ParsedScore :=
  { confidence := Confidence.high, player1Score := some a, player2Score := some b }

/-- Every result of parseScoreText either carries both scores or is exactly
the tier-4 failure record: the three matching tiers always set both scores. -/
theorem parseScoreText_shape (text : String) :
    ((parseScoreText text).player1Score.isSome = true ∧
      (parseScoreText text).player2Score.isSome = true)
    ∨ parseScoreText text =
        { player1Name := none, player2Name := none, player1Score := none,
          player2Score := none, winnerName := none, confidence := Confidence.low,
          error := some "Could not parse score from text" } := by
  unfold parseScoreText
  rcases hp1 : p1Scan text.data with _ | ⟨n1, s1, n2, s2⟩
  · rcases hp2 : p2Scan text.data with _ | ⟨w, l, s1, s2⟩
    · rcases hp3 : p3Scan text.data with _ | ⟨a, b⟩
      · right
        simp [hp1, hp2, hp3]
      · left
        simp [hp1, hp2, hp3]
    · left
      simp [hp1, hp2]
  · left
    simp [hp1]

/-- C7: validateScore accepts exactly the score pairs with both scores
present, both non-negative, exactly one equal to the match length and the
other strictly below it; and the failure conditions of the claim are each
individually triggerable with pairwise distinct error reasons. -/
theorem C7_validateScore :
    (∀ (parsed : ParsedScore) (N : Int),
      (validateScore parsed N).valid = true ↔
        ∃ a b, parsed.player1Score = some a ∧ parsed.player2Score = some b ∧
          0 ≤ a ∧ 0 ≤ b ∧ ((a = N ∧ b < N) ∨ (b = N ∧ a < N)))
    ∧ (validateScore { confidence := Confidence.low } 9).error
        = some "Could not determine both scores"
    ∧ (validateScore (scorePair 7 2) 9).error = some "One player must reach 9 points"
    ∧ (validateScore (scorePair 9 9) 9).error = some "Scores cannot be tied"
    ∧ (validateScore (scorePair 9 (-3)) 9).error = some "Scores must be positive"
    ∧ (validateScore (scorePair 9 10) 9).error
        = some "Losing score must be less than match length"
    ∧ List.Nodup ["Could not determine both scores", "One player must reach 9 points",
        "Scores cannot be tied", "Scores must be positive",
        "Losing score must be less than match length"] := by
  refine ⟨?_, by decide, by decide, by decide, by decide, by decide, by decide⟩
  intro parsed N
  rcases hp1 : parsed.player1Score with _ | a
  · simp [validateScore, hp1]
  · rcases hp2 : parsed.player2Score with _ | b
    · simp [validateScore, hp1, hp2]
    · simp only [validateScore, hp1, hp2, Option.some.injEq, min_def]
      constructor
      · intro h
        split_ifs at h <;>
          exact ⟨a, b, rfl, rfl, by omega, by omega, by omega⟩
      · rintro ⟨x, y, rfl, rfl, hx, hy, hcase⟩
        rcases hcase with ⟨haN, hbN⟩ | ⟨hbN, haN⟩ <;>
          split_ifs <;> first | rfl | (exfalso; omega)

/-- C7 witness: the characterisation instantiated at the score 9-4 against
match length 9. -/
theorem C7_validateScore_witness :
    (validateScore (scorePair 9 4) 9).valid = true ↔
      ∃ a b, (scorePair 9 4).player1Score = some a ∧
        (scorePair 9 4).player2Score = some b ∧
        0 ≤ a ∧ 0 ≤ b ∧ ((a = 9 ∧ b < 9) ∨ (b = 9 ∧ a < 9)) :=
  C7_validateScore.1 (scorePair 9 4) 9

/-- C8 (amended): an input matching neither tier 1 nor tier 2 whose text
contains two numbers separated by a dash or a colon (the separators of the
source pattern; a bare space is not one) parses to both scores with medium
confidence and no names. -/
theorem C8_tier3 (s : String) (a b : Nat)
    (h1 : p1Scan s.data = none) (h2 : p2Scan s.data = none)
    (h3 : p3Scan s.data = some (a, b)) :
    parseScoreText s =
      { player1Name := none, player2Name := none,
        player1Score := some (Int.ofNat a), player2Score := some (Int.ofNat b),
        winnerName := none, confidence := Confidence.medium, error := none } := by
  simp [parseScoreText, h1, h2, h3]

/-- C8 witness: the tier-3 result on the input 9-5. -/
theorem C8_tier3_witness :
    (p1Scan "9-5".data = none ∧ p2Scan "9-5".data = none ∧
      p3Scan "9-5".data = some (9, 5)) ∧
    parseScoreText "9-5" =
      { player1Name := none, player2Name := none,
        player1Score := some (Int.ofNat 9), player2Score := some (Int.ofNat 5),
        winnerName := none, confidence := Confidence.medium, error := none } :=
  ⟨⟨by decide, by decide, by decide⟩,
    C8_tier3 "9-5" 9 5 (by decide) (by decide) (by decide)⟩

/-- C8 counterexample: the claim includes a bare space as a tier-3 separator
(citing "9 4"), but the source pattern only accepts a dash or a colon, so
"9 4" falls through to the tier-4 failure record with low confidence. -/
theorem C8_counterexample :
    parseScoreText "9 4" =
      { player1Name := none, player2Name := none, player1Score := none,
        player2Score := none, winnerName := none, confidence := Confidence.low,
        error := some "Could not parse score from text" }
    ∧ (parseScoreText "9 4").confidence ≠ Confidence.medium := by decide

/-- C9: parseScoreText is a total function, and when no parsing tier matches
it returns the explicit could-not-parse error with low confidence and every
name and score field absent. -/
theorem C9_parseTotal (s : String)
    (h1 : p1Scan s.data = none) (h2 : p2Scan s.data = none)
    (h3 : p3Scan s.data = none) :
    parseScoreText s =
      { player1Name := none, player2Name := none, player1Score := none,
        player2Score := none, winnerName := none, confidence := Confidence.low,
        error := some "Could not parse score from text" } := by
  simp [parseScoreText, h1, h2, h3]

/-- C9 witness: the failure record on an input no tier matches. -/
theorem C9_parseTotal_witness :
    (p1Scan "hello world".data = none ∧ p2Scan "hello world".data = none ∧
      p3Scan "hello world".data = none) ∧
    parseScoreText "hello world" =
      { player1Name := none, player2Name := none, player1Score := none,
        player2Score := none, winnerName := none, confidence := Confidence.low,
        error := some "Could not parse score from text" } :=
  ⟨⟨by decide, by decide, by decide⟩,
    C9_parseTotal "hello world" (by decide) (by decide) (by decide)⟩

/-- C6: the stored trust score is the 90 / 60 / 30 mapping of the parser
confidence, capped at 40 whenever validateScore fails for the report — also
when a score is absent, because every parse missing a score is low
confidence, so the uncapped 30 already satisfies the cap. -/
theorem C6_trustScore (text : String) (N : Int) :
    (confidenceScoreOf (parseScoreText text) N =
      if (validateScore (parseScoreText text) N).valid then
        (match (parseScoreText text).confidence with
         | Confidence.high => 90
         | Confidence.medium => 60
         | Confidence.low => 30)
      else
        min (match (parseScoreText text).confidence with
             | Confidence.high => 90
             | Confidence.medium => 60
             | Confidence.low => 30) 40)
    ∧ ((validateScore (parseScoreText text) N).valid = false →
        confidenceScoreOf (parseScoreText text) N ≤ 40) := by
  rcases parseScoreText_shape text with ⟨h1, h2⟩ | heq
  · obtain ⟨a, ha⟩ := Option.isSome_iff_exists.mp h1
    obtain ⟨b, hb⟩ := Option.isSome_iff_exists.mp h2
    constructor
    · simp only [confidenceScoreOf, ha, hb]
    · intro hv
      simp only [confidenceScoreOf, ha, hb, hv, Bool.false_eq_true, if_false]
      exact Nat.min_le_right _ _
  · rw [heq]
    constructor
    · simp [confidenceScoreOf, validateScore]
    · intro _
      simp [confidenceScoreOf]

/-- C6 witness: a high-confidence parse whose scores fail validation against
match length 9 is capped at 40. -/
theorem C6_trustScore_witness :
    ((validateScore (parseScoreText "Mike beat Lisa 7-2") 9).valid = false) ∧
    confidenceScoreOf (parseScoreText "Mike beat Lisa 7-2") 9 ≤ 40 :=
  ⟨by decide, (C6_trustScore "Mike beat Lisa 7-2" 9).2 (by decide)⟩

/-- C4 (amended): winner resolution coincides with the claimed order —
name binding first, then the strictly higher score — exactly when the parsed
scores are present and validate; with missing or invalid scores the winner
stays unbound. -/
theorem C4_winnerResolution (parsed : ParsedScore) (N : Int) (tm : TargetMatch) :
    resolveParsedWinnerId parsed N tm =
      if (validateScore parsed N).valid then specWinnerResolution parsed tm
      else none := by
  rcases hp1 : parsed.player1Score with _ | a
  · have hv : (validateScore parsed N).valid = false := by
      simp [validateScore, hp1]
    simp [resolveParsedWinnerId, hp1, hv]
  · rcases hp2 : parsed.player2Score with _ | b
    · have hv : (validateScore parsed N).valid = false := by
        simp [validateScore, hp1, hp2]
      simp [resolveParsedWinnerId, hp1, hp2, hv]
    · cases hv : (validateScore parsed N).valid with
      | false => simp [resolveParsedWinnerId, hp1, hp2, hv]
      | true =>
        have hab : a ≠ b := by
          intro hEq
          have h := hv
          rw [hEq] at hp1
          simp only [validateScore, hp1, hp2, min_def] at h
          split_ifs at h
        simp only [resolveParsedWinnerId, specWinnerResolution, hp1, hp2, hv, if_true]
        cases winnerByName parsed tm with
        | some i => rfl
        | none =>
          split_ifs <;> first | rfl | omega

/-- C4 counterexample: a report naming the participant Mike as winner but
carrying scores 7-2 that fail validation against match length 9 leaves the
winner unbound, although the claimed resolution order would bind Mike. -/
theorem C4_counterexample :
    let parsed : ParsedScore :=
      { player1Name := some "Mike"
        player2Name := some "Lisa"
        player1Score := some 7
        player2Score := some 2
        winnerName := some "Mike"
        confidence := Confidence.high }
    let tm : TargetMatch :=
      { id := 5
        player1_id := some 1
        player2_id := some 2
        player1 := some { id := 1, name := "Mike" }
        player2 := some { id := 2, name := "Lisa" }
        status := MatchStatus.pending
        player1_score := none
        player2_score := none
        winner_id := none
        completed_at := none
        created_at := 0 }
    resolveParsedWinnerId parsed 9 tm = none
    ∧ specWinnerResolution parsed tm = some 1
    ∧ (validateScore parsed 9).valid = false := by decide

/-- The scan loop of the webhook is the first candidate whose participant
name occurs in the text, with the head of the list as the default. -/
theorem scanLoop_eq_find (body : String) (dflt : TargetMatch) :
    ∀ l : List TargetMatch,
      scanLoop body l dflt = (l.find? (nameMentioned body)).getD dflt := by
  intro l
  induction l with
  | nil => rfl
  | cons x rest ih =>
    cases hx : nameMentioned body x with
    | true => simp [scanLoop, List.find?, hx]
    | false => simp [scanLoop, List.find?, hx, ih]

/-- C5 (amended): with at least one active match the webhook always selects
a target — the first candidate mentioning a participant name in the text,
falling back to the first element of the candidate list as the query returns
it (the query carries no order clause, so this is not necessarily the
earliest-created match). -/
theorem C5_targetMatch (body : String) (m : TargetMatch) (rest : List TargetMatch) :
    selectTargetMatch body (m :: rest)
        = some (((m :: rest).find? (nameMentioned body)).getD m)
    ∧ (selectTargetMatch body (m :: rest)).isSome = true := by
  constructor
  · cases rest with
    | nil =>
      cases hx : nameMentioned body m <;>
        simp [selectTargetMatch, List.find?, hx]
    | cons y ys => simp [selectTargetMatch, scanLoop_eq_find]
  · cases rest with
    | nil => simp [selectTargetMatch]
    | cons y ys => simp [selectTargetMatch]

/-- C5 counterexample: with two active matches, neither of whose participant
names occurs in the text, the webhook selects the first element of the
candidate list even when it was created after the other candidate — the
fallback is list order, not earliest creation. -/
theorem C5_counterexample :
    let mLate : TargetMatch :=
      { id := 1
        player1_id := some 11
        player2_id := some 12
        player1 := some { id := 11, name := "Alice" }
        player2 := some { id := 12, name := "Bob" }
        status := MatchStatus.pending
        player1_score := none
        player2_score := none
        winner_id := none
        completed_at := none
        created_at := 200 }
    let mEarly : TargetMatch :=
      { id := 2
        player1_id := some 13
        player2_id := some 14
        player1 := some { id := 13, name := "Carol" }
        player2 := some { id := 14, name := "Dave" }
        status := MatchStatus.in_progress
        player1_score := none
        player2_score := none
        winner_id := none
        completed_at := none
        created_at := 100 }
    (selectTargetMatch "9-4" [mLate, mEarly]).map (fun m => m.id) = some 1
    ∧ mLate.created_at > mEarly.created_at
    ∧ nameMentioned "9-4" mLate = false
    ∧ nameMentioned "9-4" mEarly = false := by decide

/-- C2 (amended): when the auto-apply condition of the webhook holds, the
match update and the report approval are two separate sequential writes: the
trace has three observable states, the last has the match completed and the
report approved, but the middle state — after the match write and before the
report write — has the match completed while the report is still pending. -/
theorem C2_autoApply (tm : TargetMatch) (parsed : ParsedScore) (wid : Option Nat)
    (cs now : Nat) (h1 : cs ≥ 90) (h2 : wid.isSome = true)
    (h3 : parsed.player1Score.isSome = true) (h4 : parsed.player2Score.isSome = true) :
    (smsIntakeStates tm parsed wid cs now).length = 3
    ∧ (∃ s ∈ smsIntakeStates tm parsed wid cs now,
        s.targetMatch.status = MatchStatus.completed
        ∧ s.report.status = ReportStatus.pending)
    ∧ ((smsIntakeStates tm parsed wid cs now).getLast?).map
        (fun s => (s.targetMatch.status, s.report.status))
        = some (MatchStatus.completed, ReportStatus.approved)
    ∧ ((smsIntakeStates tm parsed wid cs now).head?).map
        (fun s => (s.targetMatch, s.report.status))
        = some (tm, ReportStatus.pending) := by
  have hc : cs ≥ 90 ∧ wid.isSome = true ∧
      parsed.player1Score.isSome = true ∧ parsed.player2Score.isSome = true :=
    ⟨h1, h2, h3, h4⟩
  refine ⟨?_, ?_, ?_, ?_⟩ <;>
    simp only [smsIntakeStates, if_pos hc]
  · rfl
  · refine ⟨_, List.mem_cons_of_mem _ (List.mem_cons_self _ _), rfl, rfl⟩
  · rfl
  · rfl

/-- C2 witness: the sequential trace on a concrete auto-applied report. -/
theorem C2_autoApply_witness :
    let tm : TargetMatch :=
      { id := 5
        player1_id := some 1
        player2_id := some 2
        player1 := some { id := 1, name := "John" }
        player2 := some { id := 2, name := "Sarah" }
        status := MatchStatus.pending
        player1_score := none
        player2_score := none
        winner_id := none
        completed_at := none
        created_at := 0 }
    let parsed : ParsedScore :=
      { player1Name := some "John"
        player2Name := some "Sarah"
        player1Score := some 9
        player2Score := some 4
        winnerName := some "John"
        confidence := Confidence.high }
    ((90 : Nat) ≥ 90 ∧ (some 1 : Option Nat).isSome = true ∧
      parsed.player1Score.isSome = true ∧ parsed.player2Score.isSome = true)
    ∧ ((smsIntakeStates tm parsed (some 1) 90 7).length = 3
      ∧ (∃ s ∈ smsIntakeStates tm parsed (some 1) 90 7,
          s.targetMatch.status = MatchStatus.completed
          ∧ s.report.status = ReportStatus.pending)
      ∧ ((smsIntakeStates tm parsed (some 1) 90 7).getLast?).map
          (fun s => (s.targetMatch.status, s.report.status))
          = some (MatchStatus.completed, ReportStatus.approved)
      ∧ ((smsIntakeStates tm parsed (some 1) 90 7).head?).map
          (fun s => (s.targetMatch, s.report.status))
          = some (tm, ReportStatus.pending)) :=
  ⟨⟨by decide, by decide, by decide, by decide⟩,
    C2_autoApply _ _ (some 1) 90 7 (by decide) (by decide) (by decide) (by decide)⟩

/-- C2 counterexample: on a concrete auto-applied report the second state of
the intake trace has the match already completed while the linked report is
still pending — the claimed atomic, intermediate-state-free transition does
not hold. -/
theorem C2_counterexample :
    let tm : TargetMatch :=
      { id := 5
        player1_id := some 1
        player2_id := some 2
        player1 := some { id := 1, name := "John" }
        player2 := some { id := 2, name := "Sarah" }
        status := MatchStatus.pending
        player1_score := none
        player2_score := none
        winner_id := none
        completed_at := none
        created_at := 0 }
    let parsed : ParsedScore :=
      { player1Name := some "John"
        player2Name := some "Sarah"
        player1Score := some 9
        player2Score := some 4
        winnerName := some "John"
        confidence := Confidence.high }
    ((smsIntakeStates tm parsed (some 1) 90 7).get? 1).map
        (fun s => (s.targetMatch.status, s.report.status))
      = some (MatchStatus.completed, ReportStatus.pending) := by decide

/-- C3 (amended): handleAdvanceRound is not idempotent — every invocation,
including one on an already-advanced bracket, bumps current_round by one and
reports the success message, never a no-op. -/
theorem C3_advanceRound (d : DivisionState) :
    ((handleAdvanceRound (handleAdvanceRound d).1).1.mainBracket.current_round
      = d.mainBracket.current_round + 2)
    ∧ (handleAdvanceRound (handleAdvanceRound d).1).2
      = s!"Advanced to Round {d.mainBracket.current_round + 2}" :=
  ⟨rfl, rfl⟩

/-- Correctness of the fuel-driven ceiling log: with enough fuel, n fits
under 2 to the computed exponent. -/
theorem clog2Fuel_le_pow : ∀ (fuel n : Nat), n ≤ fuel + 1 → 1 ≤ n →
    n ≤ 2 ^ clog2Fuel fuel n := by
  intro fuel
  induction fuel with
  | zero =>
    intro n h1 h2
    have hn : n = 1 := by omega
    subst hn
    decide
  | succ f ih =>
    intro n h1 h2
    by_cases hn : n ≤ 1
    · have hone : n = 1 := by omega
      subst hone
      simp [clog2Fuel]
    · have hm1 : 1 ≤ (n + 1) / 2 := by omega
      have hm2 : (n + 1) / 2 ≤ f + 1 := by omega
      have hrec := ih ((n + 1) / 2) hm2 hm1
      simp only [clog2Fuel, if_neg hn]
      have hpow : 2 ^ (clog2Fuel f ((n + 1) / 2) + 1)
          = 2 * 2 ^ clog2Fuel f ((n + 1) / 2) := by
        rw [pow_succ]
        ring
      omega

/-- Minimality of the fuel-driven ceiling log. -/
theorem clog2Fuel_min : ∀ (fuel n j : Nat), n ≤ fuel + 1 → n ≤ 2 ^ j →
    clog2Fuel fuel n ≤ j := by
  intro fuel
  induction fuel with
  | zero =>
    intro n j h1 h2
    simp [clog2Fuel]
  | succ f ih =>
    intro n j h1 h2
    by_cases hn : n ≤ 1
    · simp [clog2Fuel, hn]
    · simp only [clog2Fuel, if_neg hn]
      cases j with
      | zero =>
        simp at h2
        omega
      | succ j' =>
        have hpow : 2 ^ (j' + 1) = 2 * 2 ^ j' := by
          rw [pow_succ]
          ring
        have hm : (n + 1) / 2 ≤ 2 ^ j' := by omega
        have hm2 : (n + 1) / 2 ≤ f + 1 := by omega
        have := ih ((n + 1) / 2) j' hm2 hm
        omega

/-- Bounds of nextPowerOf2 for at least two players: it is at least n, at
most 2n - 2, and even. -/
theorem nextPowerOf2_bounds (n : Nat) (h : 2 ≤ n) :
    n ≤ nextPowerOf2 n ∧ nextPowerOf2 n ≤ 2 * n - 2 ∧ nextPowerOf2 n % 2 = 0 := by
  have hle : n ≤ 2 ^ clog2 n := clog2Fuel_le_pow n n (by omega) (by omega)
  have hk : 1 ≤ clog2 n := by
    by_contra hc
    have h0 : clog2 n = 0 := by omega
    rw [h0] at hle
    simp at hle
    omega
  obtain ⟨k', hk'⟩ : ∃ k', clog2 n = k' + 1 := ⟨clog2 n - 1, by omega⟩
  have hmin : ¬ n ≤ 2 ^ k' := by
    intro hc
    have := clog2Fuel_min n n k' (by omega) hc
    have : clog2 n ≤ k' := this
    omega
  have hpow : 2 ^ (k' + 1) = 2 * 2 ^ k' := by
    rw [pow_succ]
    ring
  have hB : nextPowerOf2 n = 2 ^ (k' + 1) := by
    unfold nextPowerOf2
    rw [if_neg (by omega), hk']
  rw [hk'] at hle
  rw [hB]
  omega

/-- Length of the bye-match block. -/
theorem byeMatchesFrom_len (k : Nat) (l : List Player) :
    (byeMatchesFrom k l).length = l.length := by
  induction l generalizing k with
  | nil => rfl
  | cons p ps ih => simp [byeMatchesFrom, ih]

/-- Every match of the bye block has status bye. -/
theorem byeMatchesFrom_count (k : Nat) (l : List Player) :
    (byeMatchesFrom k l).countP (fun m => m.status == MatchStatus.bye) = l.length := by
  induction l generalizing k with
  | nil => rfl
  | cons p ps ih => simp [byeMatchesFrom, List.countP_cons, ih]

/-- Participants of the bye block are exactly the bye players, once each. -/
theorem byeMatchesFrom_participants (k : Nat) (l : List Player) :
    (byeMatchesFrom k l).flatMap matchParticipants = l.map Player.id := by
  induction l generalizing k with
  | nil => rfl
  | cons p ps ih => simp [byeMatchesFrom, matchParticipants, ih]

/-- Match numbers of the bye block are consecutive from its start number. -/
theorem byeMatchesFrom_numbers (k : Nat) (l : List Player) :
    (byeMatchesFrom k l).map (fun m => m.match_number) = List.range' k l.length := by
  induction l generalizing k with
  | nil => rfl
  | cons p ps ih => simp [byeMatchesFrom, ih, List.range'_succ]

/-- Length of the paired block: players paired off two at a time, the odd
trailing one alone. -/
theorem pairMatchesFrom_len (k : Nat) (l : List Player) :
    (pairMatchesFrom k l).length = (l.length + 1) / 2 := by
  induction k, l using pairMatchesFrom.induct with
  | case1 k => rfl
  | case2 k p => simp [pairMatchesFrom]
  | case3 k p q rest ih =>
    simp only [pairMatchesFrom, List.length_cons, ih]
    omega

/-- The paired block contains a bye exactly when the player count is odd. -/
theorem pairMatchesFrom_count (k : Nat) (l : List Player) :
    (pairMatchesFrom k l).countP (fun m => m.status == MatchStatus.bye)
      = l.length % 2 := by
  induction k, l using pairMatchesFrom.induct with
  | case1 k => rfl
  | case2 k p => rfl
  | case3 k p q rest ih =>
    simp only [pairMatchesFrom, List.countP_cons, ih, List.length_cons]
    simp
    omega

/-- Participants of the paired block are exactly its players, in order. -/
theorem pairMatchesFrom_participants (k : Nat) (l : List Player) :
    (pairMatchesFrom k l).flatMap matchParticipants = l.map Player.id := by
  induction k, l using pairMatchesFrom.induct with
  | case1 k => rfl
  | case2 k p => rfl
  | case3 k p q rest ih => simp [pairMatchesFrom, matchParticipants, ih]

/-- Match numbers of the paired block are consecutive from its start. -/
theorem pairMatchesFrom_numbers (k : Nat) (l : List Player) :
    (pairMatchesFrom k l).map (fun m => m.match_number)
      = List.range' k ((l.length + 1) / 2) := by
  induction k, l using pairMatchesFrom.induct with
  | case1 k => rfl
  | case2 k p => simp [pairMatchesFrom, List.range'_one]
  | case3 k p q rest ih =>
    have harith : (rest.length + 1 + 1 + 1) / 2 = (rest.length + 1) / 2 + 1 := by
      omega
    simp only [pairMatchesFrom, List.map_cons, ih, List.length_cons, harith,
      List.range'_succ]

/-- Two adjacent blocks of consecutive numbers starting at 1 concatenate to
one consecutive block. -/
theorem range'_one_append (a b : Nat) :
    List.range' 1 a ++ List.range' (a + 1) b = List.range' 1 (a + b) := by
  have h := List.range'_append 1 a b 1
  simp only [Nat.one_mul] at h
  rw [Nat.add_comm 1 a] at h
  rw [h, Nat.add_comm b a]

/-- C1 (amended): generateRound1Matches produces nextPowerOf2 N - N bye
matches for every player count N except N = 1, where the single unpaired
player receives one bye match; the participants across all round-1 matches
(bye players once) are exactly the input players; and the match numbers are
unique and contiguous starting at 1.  The empty list yields no matches. -/
theorem C1_generateRound1 (ps : List Player) :
    ((generateRound1Matches ps).countP (fun m => m.status == MatchStatus.bye)
        = nextPowerOf2 ps.length - ps.length + (if ps.length = 1 then 1 else 0))
    ∧ (generateRound1Matches ps).flatMap matchParticipants = ps.map Player.id
    ∧ (generateRound1Matches ps).map (fun m => m.match_number)
        = List.range' 1 (generateRound1Matches ps).length
    ∧ generateRound1Matches [] = [] := by
  refine ⟨?_, ?_, ?_, rfl⟩
  · simp only [generateRound1Matches, List.countP_append, byeMatchesFrom_count,
      pairMatchesFrom_count, List.length_take, List.length_drop]
    rcases Nat.lt_or_ge ps.length 2 with hN | hN
    · have h01 : ps.length = 0 ∨ ps.length = 1 := by omega
      rcases h01 with h0 | h0 <;> rw [h0] <;> decide
    · have hb := nextPowerOf2_bounds ps.length hN
      have hne : ps.length ≠ 1 := by omega
      rw [if_neg hne]
      omega
  · simp only [generateRound1Matches, List.flatMap_append,
      byeMatchesFrom_participants, pairMatchesFrom_participants,
      ← List.map_append, List.take_append_drop]
  · simp only [generateRound1Matches, List.map_append, List.length_append,
      byeMatchesFrom_numbers, pairMatchesFrom_numbers, byeMatchesFrom_len,
      pairMatchesFrom_len, List.length_take, List.length_drop]
    exact range'_one_append _ _

/-- C1 counterexample: a single player does get a match record — one bye
match — although the claim asserts no matches for N = 1 and a bye count of
nextPow2(1) - 1 = 0. -/
theorem C1_counterexample :
    generateRound1Matches [{ id := 1, name := "A" }] =
      [{ round_number := 1, match_number := 1, player1_id := some 1,
         player2_id := none, status := MatchStatus.bye, winner_id := some 1 }]
    ∧ nextPowerOf2 1 - 1 = 0 := by decide

/-- C3 counterexample: a completed round 1 is advanced to round 2, which
consists of a single bye, so canAdvanceRound is satisfied again; a second
invocation of handleAdvanceRound then bumps current_round to 3, inserts a
further (duplicate) bye match and reports another success message — not a
detectable no-op. -/
theorem C3_counterexample :
    let d0 : DivisionState :=
      { mainBracket :=
          { id := 10
            current_round := 1
            status := BracketStatus.in_progress
            matchList :=
              [{ bracket_id := 10, round_number := 1, match_number := 1,
                 player1_id := some 1, player2_id := some 2, winner_id := some 1,
                 status := MatchStatus.completed, table_number := some 1 }] }
        consolationBracket := none }
    let d1 := (handleAdvanceRound d0).1
    d1.mainBracket.current_round = 2
    ∧ canAdvanceRound d1 = true
    ∧ (handleAdvanceRound d1).1.mainBracket.current_round = 3
    ∧ (handleAdvanceRound d1).1.mainBracket.matchList.length
        = d1.mainBracket.matchList.length + 1
    ∧ (handleAdvanceRound d1).2 = "Advanced to Round 3" := by decide

end BG
